import Mathlib

/-!
Verification of the Docker API service facade (DOCKER-API-SERVICE/src).

The Python managers are shallowly embedded as pure Lean functions.
Daemon-owned state (the docker client's answers) is passed explicitly:
a lookup that may fail is an `Option`, a daemon call that may raise is an
`Except String` carrying the exception text, and each mutating operation
additionally returns a `Bool` recording whether the daemon-side call was
actually issued.  Python strings that are sliced by index (container,
network and image ids) are embedded as `List Char`; other strings stay
`String`.  A Python dict `.get(key, default)` on a possibly missing key
becomes an `Option` field read with `Option.getD`.
-/

/-- `String.mk` shorthand used when an id (`List Char`) is spliced into a
message string, mirroring Python's f-string interpolation. -/
def chrs (l : List Char) : String := String.mk l

/-- Boolean test that `p` occurs at the head of `l`; embeds Python's
implicit string matching used by checks like `pat in s` (head position). -/
def leadsWith : List Char → List Char → Bool
  | [], _ => true
  | _ :: _, [] => false
  | a :: as, b :: bs => a == b && leadsWith as bs

/-- Boolean test that `pat` occurs contiguously anywhere in `l`; embeds the
Python expression `pat in s` on strings. -/
def containsSub (pat : List Char) : List Char → Bool
  | [] => leadsWith pat []
  | l@(_ :: rest) => leadsWith pat l || containsSub pat rest

/-- Embeds Python `s.lower()` on the exception text. -/
def lowerStr (s : String) : List Char := s.toList.map Char.toLower

/-- Embeds Python `s.split(sep)` for a one-character separator:
`''.split(c) == ['']`, and every separator occurrence opens a new
(possibly empty) chunk. -/
def splitOnChar (sep : Char) : List Char → List (List Char)
  | [] => [[]]
  | c :: rest =>
    let r := splitOnChar sep rest
    if c == sep then [] :: r
    else
      match r with
      | [] => [[c]]
      | x :: xs => (c :: x) :: xs

/-- `strIn pat s` embeds Python `pat in str(e)` (case kept). -/
def strIn (pat : String) (s : String) : Bool := containsSub pat.toList s.toList

/-- `strInLower pat s` embeds Python `pat in str(e).lower()`. -/
def strInLower (pat : String) (s : String) : Bool := containsSub pat.toList (lowerStr s)

/-!
## The shared size formatter

All three `_format_size` copies loop over `['B','KB','MB','GB','TB']`,
dividing by `1024.0` until the value is below 1024, and print the value
with one decimal (`f"\x7bsize_bytes:.1f\x7d \x7bunit\x7d"`), falling back to `PB`.

In CPython the running value after `k` divisions is exactly the rational
`n / 1024^k` (division by a power of two only shifts the exponent, exact
for every `n < 2^53`), and `:.1f` rounds that exact value to one decimal
with ties going to the even digit.  The embedding therefore tracks the
exact pair `(n, k)` in `Nat` and rounds ties to even explicitly.
-/

/-- Round `num / den` to the nearest integer, ties to even
(the rounding CPython's `:.1f` applies to the exactly represented float). -/
def roundTiesEven (num den : Nat) : Nat :=
  let q := num / den
  let r := num % den
  if 2 * r < den then q
  else if den < 2 * r then q + 1
  else if q % 2 = 0 then q else q + 1

/-- Print `n / 1024^k` with one decimal digit followed by the unit,
embedding `f"\x7bsize_bytes:.1f\x7d \x7bunit\x7d"`. -/
def fmtOneDecimal (n k : Nat) (unit : String) : String :=
  let t := roundTiesEven (10 * n) (1024 ^ k)
  toString (t / 10) ++ "." ++ toString (t % 10) ++ " " ++ unit

/-- The `for unit in ['B','KB','MB','GB','TB']` loop of `_format_size`:
`k` counts the divisions by 1024 performed so far, so the Python guard
`size_bytes < 1024.0` is `n < 1024 ^ (k+1)`; falling off the loop prints
the value (divided five times) as `PB`. -/
def formatSizeLoop : List String → Nat → Nat → String
  | [], n, k => fmtOneDecimal n k "PB"
  | u :: us, n, k =>
      if n < 1024 ^ (k + 1) then fmtOneDecimal n k u
      else formatSizeLoop us n (k + 1)

/-- `SystemManager._format_size` (system_manager.py:297-306): special-cases
`size_bytes == 0` to `"0 B"`, then runs the unit loop. -/
def SystemManager.format_size (size_bytes : Nat) : String :=
  if size_bytes = 0 then "0 B"
  else formatSizeLoop ["B", "KB", "MB", "GB", "TB"] size_bytes 0

/-- `VolumeManager._format_size` (volume_manager.py:252-261): identical to
the SystemManager copy, including the `"0 B"` special case. -/
def VolumeManager.format_size (size_bytes : Nat) : String :=
  if size_bytes = 0 then "0 B"
  else formatSizeLoop ["B", "KB", "MB", "GB", "TB"] size_bytes 0

/-- `ImageManager._format_size` (image_manager.py:264-270): the unit loop
only — this copy has NO `size_bytes == 0` special case. -/
def ImageManager.format_size (size_bytes : Nat) : String :=
  formatSizeLoop ["B", "KB", "MB", "GB", "TB"] size_bytes 0

example : SystemManager.format_size 0 = "0 B" := by decide
example : ImageManager.format_size 0 = "0.0 B" := by decide
example : SystemManager.format_size 1536 = "1.5 KB" := by decide
example : ImageManager.format_size (1024 ^ 3) = "1.0 GB" := by decide
example : SystemManager.format_size 1280 = "1.2 KB" := by decide

/-!
## SystemManager.get_disk_usage (system_manager.py:96-161)

`client.df()` is embedded as a `DfReport` record holding the four raw
collections; each raw entry keeps the dict keys `get_disk_usage` reads,
as `Option` fields (a missing key is `none`).
-/

/-- One entry of `df_info['Containers']`: keys read are `SizeRw`,
`SizeRootFs` (both defaulted to 0) and `State` (no default). -/
structure DfContainer where
  SizeRw : Option Nat
  SizeRootFs : Option Nat
  State : Option String

/-- One entry of `df_info['Images']`: keys read are `Size`, `SharedSize`
(defaulted to 0) and `Containers` (dependent-container count, defaulted
to 0 and tested for falsiness, i.e. equality with 0). -/
structure DfImage where
  Size : Option Nat
  SharedSize : Option Nat
  Containers : Option Int

/-- One entry of `df_info['Volumes']`: keys read are `Size` and
`RefCount`, both defaulted to 0. -/
structure DfVolume where
  Size : Option Nat
  RefCount : Option Int

/-- One entry of `df_info['BuildCache']`: only `Size` is read. -/
structure DfBuildCache where
  Size : Option Nat

/-- The `client.df()` report; `df_info.get(key, [])` on a missing key is
the empty list, so the four collections are plain lists. -/
structure DfReport where
  Containers : List DfContainer
  Images : List DfImage
  Volumes : List DfVolume
  BuildCache : List DfBuildCache

/-- Python's `sum(f(c) for c in l if p(c))`: a left fold with a guard. -/
def pysum (f : α → Nat) (p : α → Bool) (l : List α) : Nat :=
  l.foldl (fun acc c => if p c then acc + f c else acc) 0

/-- A disk-usage category block (`containers`, `volumes`, `build_cache`). -/
structure DuCategory where
  count : Nat
  size : String
  size_bytes : Nat
  reclaimable : String
  reclaimable_bytes : Nat

/-- The `images` block additionally carries the shared-size fields. -/
structure DuImages where
  count : Nat
  size : String
  size_bytes : Nat
  shared_size : String
  shared_size_bytes : Nat
  reclaimable : String
  reclaimable_bytes : Nat

/-- The `total` block. -/
structure DuTotal where
  size : String
  size_bytes : Nat

/-- The nested result of `get_disk_usage`. -/
structure DiskUsage where
  containers : DuCategory
  images : DuImages
  volumes : DuCategory
  build_cache : DuCategory
  total : DuTotal

/-- `SystemManager.get_disk_usage` (system_manager.py:96-161), the success
path: aggregate the four raw collections into the nested report. -/
def SystemManager.get_disk_usage (df : DfReport) : DiskUsage :=
  let containers_size := pysum (fun c => c.SizeRw.getD 0 + c.SizeRootFs.getD 0)
    (fun _ => true) df.Containers
  let images_size := pysum (fun img => img.Size.getD 0) (fun _ => true) df.Images
  let images_shared_size := pysum (fun img => img.SharedSize.getD 0) (fun _ => true) df.Images
  let volumes_size := pysum (fun vol => vol.Size.getD 0) (fun _ => true) df.Volumes
  let build_cache_size := pysum (fun cache => cache.Size.getD 0) (fun _ => true) df.BuildCache
  let containers_reclaimable := pysum (fun c => c.SizeRw.getD 0)
    (fun c => c.State ≠ some "running") df.Containers
  let images_reclaimable := pysum (fun img => img.Size.getD 0)
    (fun img => img.Containers.getD 0 = 0) df.Images
  let volumes_reclaimable := pysum (fun vol => vol.Size.getD 0)
    (fun vol => vol.RefCount.getD 0 = 0) df.Volumes
  { containers :=
      { count := df.Containers.length
        size := SystemManager.format_size containers_size
        size_bytes := containers_size
        reclaimable := SystemManager.format_size containers_reclaimable
        reclaimable_bytes := containers_reclaimable }
    images :=
      { count := df.Images.length
        size := SystemManager.format_size images_size
        size_bytes := images_size
        shared_size := SystemManager.format_size images_shared_size
        shared_size_bytes := images_shared_size
        reclaimable := SystemManager.format_size images_reclaimable
        reclaimable_bytes := images_reclaimable }
    volumes :=
      { count := df.Volumes.length
        size := SystemManager.format_size volumes_size
        size_bytes := volumes_size
        reclaimable := SystemManager.format_size volumes_reclaimable
        reclaimable_bytes := volumes_reclaimable }
    build_cache :=
      { count := df.BuildCache.length
        size := SystemManager.format_size build_cache_size
        size_bytes := build_cache_size
        reclaimable := SystemManager.format_size build_cache_size
        reclaimable_bytes := build_cache_size }
    total :=
      { size := SystemManager.format_size
          (containers_size + images_size + volumes_size + build_cache_size)
        size_bytes := containers_size + images_size + volumes_size + build_cache_size } }

/-- The guarded Python sum is the sum of the mapped filtered list. -/
theorem pysum_eq_sum_filter (f : α → Nat) (p : α → Bool) (l : List α) :
    pysum f p l = ((l.filter p).map f).sum := by
  suffices h : ∀ a : Nat,
      l.foldl (fun acc c => if p c then acc + f c else acc) a
        = a + ((l.filter p).map f).sum by
    simpa [pysum] using h 0
  induction l with
  | nil => simp
  | cons x xs ih =>
    intro a
    by_cases hx : p x <;> simp [List.filter_cons, hx, ih, Nat.add_assoc]

/-!
## SystemManager.get_daemon_status (system_manager.py:163-198)

The three daemon calls `ping()`, `info()` and `version()` are inputs of
type `Except String _` carrying the raised exception's text on failure;
the Python `try/except Exception` makes the operation total, which the
embedding reflects by returning `DaemonStatus` (not an `Except`).
-/

/-- Keys of `client.version()` read by `get_daemon_status`. -/
structure RawVersionInfo where
  Version : Option String
  ApiVersion : Option String

/-- Keys of `client.info()` read by `get_daemon_status`. -/
structure RawSystemInfo where
  ContainersRunning : Option Nat
  Containers : Option Nat
  Images : Option Nat
  Driver : Option String
  LoggingDriver : Option String
  Warnings : Option (List String)
  ExperimentalBuild : Option Bool
  LiveRestoreEnabled : Option Bool

/-- The two shapes `get_daemon_status` returns: the success dict with
`status: 'running'`, or the degraded dict
`{status: 'not_running', error, ping: False}`. -/
inductive DaemonStatus where
  | running (ping : Bool) (server_version api_version : String)
      (containers_running containers_total images_total : Nat)
      (storage_driver logging_driver : String) (warnings : List String)
      (experimental live_restore : Bool)
  | not_running (error : String) (ping : Bool)
deriving DecidableEq

/-- `SystemManager.get_daemon_status` (system_manager.py:163-198):
probe `ping()`, then `info()`, then `version()`; any exception is
caught and turned into the `not_running` record. -/
def SystemManager.get_daemon_status (pingR : Except String Bool)
    (infoR : Except String RawSystemInfo)
    (versionR : Except String RawVersionInfo) : DaemonStatus :=
  match pingR with
  | .error e => .not_running e false
  | .ok ping_result =>
    match infoR with
    | .error e => .not_running e false
    | .ok info =>
      match versionR with
      | .error e => .not_running e false
      | .ok version =>
        .running ping_result
          (version.Version.getD "unknown") (version.ApiVersion.getD "unknown")
          (info.ContainersRunning.getD 0) (info.Containers.getD 0)
          (info.Images.getD 0)
          (info.Driver.getD "unknown") (info.LoggingDriver.getD "unknown")
          (info.Warnings.getD [])
          (info.ExperimentalBuild.getD false) (info.LiveRestoreEnabled.getD false)

/-!
## Claims C2, C3, C5, C7
-/

/-- C2: for every daemon disk-usage report, the `total.size_bytes` of
`get_disk_usage` equals the sum of the four category `size_bytes`
fields (containers + images + volumes + build cache). -/
theorem disk_usage_total_is_sum_of_categories (df : DfReport) :
    (SystemManager.get_disk_usage df).total.size_bytes
      = (SystemManager.get_disk_usage df).containers.size_bytes
        + (SystemManager.get_disk_usage df).images.size_bytes
        + (SystemManager.get_disk_usage df).volumes.size_bytes
        + (SystemManager.get_disk_usage df).build_cache.size_bytes := rfl

/-- C3: `get_disk_usage` computes the per-category reclaimable bytes as:
containers — sum of writable-layer size `SizeRw` over containers whose
state is not `'running'`; images — sum of `Size` over images with zero
dependent-container count; volumes — sum of `Size` over volumes with
reference count zero; build cache — its full size. -/
theorem disk_usage_reclaimable_rules (df : DfReport) :
    (SystemManager.get_disk_usage df).containers.reclaimable_bytes
        = (((df.Containers.filter fun c => c.State ≠ some "running").map
            fun c => c.SizeRw.getD 0).sum)
    ∧ (SystemManager.get_disk_usage df).images.reclaimable_bytes
        = (((df.Images.filter fun img => img.Containers.getD 0 = 0).map
            fun img => img.Size.getD 0).sum)
    ∧ (SystemManager.get_disk_usage df).volumes.reclaimable_bytes
        = (((df.Volumes.filter fun vol => vol.RefCount.getD 0 = 0).map
            fun vol => vol.Size.getD 0).sum)
    ∧ (SystemManager.get_disk_usage df).build_cache.reclaimable_bytes
        = (SystemManager.get_disk_usage df).build_cache.size_bytes := by
  refine ⟨?_, ?_, ?_, rfl⟩ <;>
    simp [SystemManager.get_disk_usage, pysum_eq_sum_filter]

/-- C5: `get_daemon_status` never raises — it is total over every daemon
behaviour; when the liveness probe or the info/version query fails with
error text `e` it returns the degraded record
`not_running e (ping := false)`, and when all three succeed it returns
the `running` record carrying the version and count fields. -/
theorem daemon_status_never_raises_and_degrades
    (pingR : Except String Bool) (infoR : Except String RawSystemInfo)
    (versionR : Except String RawVersionInfo) :
    (∀ e, pingR = .error e →
      SystemManager.get_daemon_status pingR infoR versionR
        = .not_running e false)
    ∧ (∀ p e, pingR = .ok p → infoR = .error e →
      SystemManager.get_daemon_status pingR infoR versionR
        = .not_running e false)
    ∧ (∀ p i e, pingR = .ok p → infoR = .ok i → versionR = .error e →
      SystemManager.get_daemon_status pingR infoR versionR
        = .not_running e false)
    ∧ (∀ p i v, pingR = .ok p → infoR = .ok i → versionR = .ok v →
      SystemManager.get_daemon_status pingR infoR versionR
        = .running p (v.Version.getD "unknown") (v.ApiVersion.getD "unknown")
            (i.ContainersRunning.getD 0) (i.Containers.getD 0)
            (i.Images.getD 0) (i.Driver.getD "unknown")
            (i.LoggingDriver.getD "unknown") (i.Warnings.getD [])
            (i.ExperimentalBuild.getD false) (i.LiveRestoreEnabled.getD false)) := by
  refine ⟨fun e he => ?_, fun p e hp hi => ?_, fun p i e hp hi hv => ?_,
    fun p i v hp hi hv => ?_⟩ <;>
    subst_vars <;> rfl

/-- C5 witness: the theorem applied at a concrete failing probe and at a
concrete fully successful daemon. -/
theorem daemon_status_never_raises_and_degrades_witness :
    SystemManager.get_daemon_status (.error "connection refused")
        (.ok ⟨some 2, some 5, some 7, some "overlay2", some "json-file",
          some [], some false, some false⟩)
        (.ok ⟨some "24.0.7", some "1.43"⟩)
      = .not_running "connection refused" false
    ∧ SystemManager.get_daemon_status (.ok true)
        (.ok ⟨some 2, some 5, some 7, some "overlay2", some "json-file",
          some ["w1"], some false, some true⟩)
        (.ok ⟨some "24.0.7", some "1.43"⟩)
      = .running true "24.0.7" "1.43" 2 5 7 "overlay2" "json-file" ["w1"]
          false true := by
  constructor
  · exact (daemon_status_never_raises_and_degrades (.error "connection refused")
      (.ok ⟨some 2, some 5, some 7, some "overlay2", some "json-file",
        some [], some false, some false⟩)
      (.ok ⟨some "24.0.7", some "1.43"⟩)).1 "connection refused" rfl
  · exact (daemon_status_never_raises_and_degrades (.ok true)
      (.ok ⟨some 2, some 5, some 7, some "overlay2", some "json-file",
        some ["w1"], some false, some true⟩)
      (.ok ⟨some "24.0.7", some "1.43"⟩)).2.2.2 true _ _ rfl rfl rfl

/-- C7 counterexample: the claim asserts `format_size 0 = "0 B"` for every
copy of the formatter, but the `ImageManager` copy lacks the zero guard
and yields `"0.0 B"` at input 0. -/
theorem format_size_zero_image_copy_cex :
    ImageManager.format_size 0 ≠ "0 B"
    ∧ ImageManager.format_size 0 = "0.0 B" := by
  constructor <;> decide

/-- C7 amended: the `SystemManager` and `VolumeManager` formatter copies
satisfy all three sample equations (`0 ↦ "0 B"`, `1536 ↦ "1.5 KB"`,
`1024^3 ↦ "1.0 GB"`); the `ImageManager` copy agrees on the positive
samples but maps 0 to `"0.0 B"` because it lacks the zero special case. -/
theorem format_size_values_per_copy :
    SystemManager.format_size 0 = "0 B"
    ∧ VolumeManager.format_size 0 = "0 B"
    ∧ ImageManager.format_size 0 = "0.0 B"
    ∧ SystemManager.format_size 1536 = "1.5 KB"
    ∧ VolumeManager.format_size 1536 = "1.5 KB"
    ∧ ImageManager.format_size 1536 = "1.5 KB"
    ∧ SystemManager.format_size (1024 ^ 3) = "1.0 GB"
    ∧ VolumeManager.format_size (1024 ^ 3) = "1.0 GB"
    ∧ ImageManager.format_size (1024 ^ 3) = "1.0 GB" := by
  refine ⟨?_, ?_, ?_, ?_, ?_, ?_, ?_, ?_, ?_⟩ <;> decide

/-!
## NetworkManager (network_manager.py)

A network's daemon-side attributes are embedded as `DockerNetwork`.
`network.attrs.get('Containers', {})` — the endpoint table — is an
association list keyed by the (full) connected container id;
`containersAttr = none` models the helper's read of that daemon data
raising, which `_get_network_containers` swallows (returns `[]`).
Lookups (`client.networks.get` / `client.containers.get`) are `Option`
inputs (`none` = `docker.errors.NotFound`); the Python code recovers the
two not-found messages by testing `'network' in str(e).lower()` on the
daemon's message.  Errors raised by the mutating daemon call itself are
split by Python except-clause: `apiError` for `docker.errors.APIError`,
`other` for anything else.
-/

/-- An exception raised by a daemon call, tagged with the except-clause
that would catch it. -/
inductive DaemonCallError where
  | apiError (msg : String)
  | other (msg : String)
deriving DecidableEq

/-- One value of the endpoint table `network.attrs['Containers']`; keys
read by `_get_network_containers`, as `Option` fields. -/
structure NetEndpointInfo where
  Name : Option String
  IPv4Address : Option String
  IPv6Address : Option String
  MacAddress : Option String
  EndpointID : Option String
deriving DecidableEq

/-- The daemon-side network attributes read by `NetworkManager`. -/
structure DockerNetwork where
  id : List Char
  name : String
  containersAttr : Option (List (List Char × NetEndpointInfo))
deriving DecidableEq

/-- The container reference used by connect/disconnect (`.id`, `.name`). -/
structure DockerContainerRef where
  id : List Char
  name : String
deriving DecidableEq

/-- One entry of the list `_get_network_containers` returns. -/
structure NetworkContainerEntry where
  id : List Char
  name : String
  ipv4_address : String
  ipv6_address : String
  mac_address : String
  endpoint_id : List Char
deriving DecidableEq

/-- The loop body of `_get_network_containers`
(network_manager.py:323-331): build the entry dict for one endpoint.
`IPv4Address`/`IPv6Address` are split on `'/'` keeping the first part
when truthy, else `''`. -/
def entryOfEndpoint (container_id : List Char) (info : NetEndpointInfo) :
    NetworkContainerEntry :=
  let v4 := info.IPv4Address.getD ""
  let v6 := info.IPv6Address.getD ""
  { id := container_id.take 12
    name := info.Name.getD "unknown"
    ipv4_address := if v4 = "" then ""
      else chrs ((splitOnChar '/' v4.toList).headD [])
    ipv6_address := if v6 = "" then ""
      else chrs ((splitOnChar '/' v6.toList).headD [])
    mac_address := info.MacAddress.getD ""
    endpoint_id := (info.EndpointID.getD "").toList.take 12 }

/-- `NetworkManager._get_network_containers` (network_manager.py:309-335):
map the endpoint table to entry dicts; any exception while reading the
daemon data (`containersAttr = none`) yields `[]`. -/
def NetworkManager.get_network_containers (network : DockerNetwork) :
    List NetworkContainerEntry :=
  match network.containersAttr with
  | none => []
  | some tbl => tbl.map fun e => entryOfEndpoint e.1 e.2

/-- The conflict message of `remove_network` (network_manager.py:159). -/
def networkInUseMsg (network_name : String) (container_names : List String) :
    String :=
  "Cannot remove network \x27" ++ network_name
    ++ "\x27 - it\x27s being used by containers: "
    ++ String.intercalate ", " container_names
    ++ ". Disconnect containers first"

/-- The success dict of `remove_network`. -/
structure RemoveNetResult where
  message : String
  id : String
  name : String
  status : String
deriving DecidableEq

/-- `NetworkManager.remove_network` (network_manager.py:141-179): resolve
the network, enumerate connected containers, fail with the conflict
message when any are connected, otherwise issue `network.remove()`.
The `Bool` component records whether `network.remove()` was issued. -/
def NetworkManager.remove_network (net? : Option DockerNetwork)
    (daemonRemove : Except DaemonCallError Unit) (network_id : String) :
    Except String RemoveNetResult × Bool :=
  match net? with
  | none => (.error ("Network \x27" ++ network_id ++ "\x27 not found"), false)
  | some network =>
    let network_name := network.name
    let containers := NetworkManager.get_network_containers network
    if containers.isEmpty then
      match daemonRemove with
      | .ok _ =>
          (.ok { message := "Network \x27" ++ network_name
                   ++ "\x27 removed successfully"
                 id := network_id, name := network_name
                 status := "removed" }, true)
      | .error (.apiError e) =>
          if strInLower "has active endpoints" e then
            (.error ("Cannot remove network \x27" ++ network_id
              ++ "\x27 - it has active endpoints. Disconnect containers first"),
              true)
          else (.error ("Failed to remove network: " ++ e), true)
      | .error (.other e) =>
          if strIn "it\x27s being used by containers" e then (.error e, true)
          else (.error ("Failed to remove network: " ++ e), true)
    else
      let container_names := containers.map (·.name)
      (.error (networkInUseMsg network_name container_names), false)

/-- The success dict of connect/disconnect. -/
structure ConnectResult where
  message : String
  network_id : List Char
  network_name : String
  container_id : List Char
  container_name : String
  status : String
deriving DecidableEq

/-- `NetworkManager.connect_container` (network_manager.py:181-233): the
membership guard compares 12-character short ids; on a hit it raises
before `network.connect` is issued (`Bool` component false). -/
def NetworkManager.connect_container (net? : Option DockerNetwork)
    (cont? : Option DockerContainerRef)
    (daemonConnect : Except DaemonCallError Unit)
    (network_id container_id : String) :
    Except String ConnectResult × Bool :=
  match net? with
  | none => (.error ("Network \x27" ++ network_id ++ "\x27 not found"), false)
  | some network =>
    match cont? with
    | none =>
        (.error ("Container \x27" ++ container_id ++ "\x27 not found"), false)
    | some container =>
      let current_containers := NetworkManager.get_network_containers network
      if current_containers.any fun c => c.id == container.id.take 12 then
        (.error ("Container \x27" ++ container.name
          ++ "\x27 is already connected to network \x27"
          ++ network.name ++ "\x27"), false)
      else
        match daemonConnect with
        | .ok _ =>
            (.ok { message := "Container \x27" ++ container.name
                     ++ "\x27 connected to network \x27" ++ network.name
                     ++ "\x27 successfully"
                   network_id := network.id.take 12
                   network_name := network.name
                   container_id := container.id.take 12
                   container_name := container.name
                   status := "connected" }, true)
        | .error (.apiError e) =>
            (.error ("Failed to connect container to network: " ++ e), true)
        | .error (.other e) =>
            if strIn "already connected" e then (.error e, true)
            else (.error ("Failed to connect container to network: " ++ e), true)

/-- `NetworkManager.disconnect_container` (network_manager.py:235-277):
the membership guard requires some endpoint entry whose 12-character
short id equals the container's; otherwise it raises before
`network.disconnect` is issued. -/
def NetworkManager.disconnect_container (net? : Option DockerNetwork)
    (cont? : Option DockerContainerRef)
    (daemonDisconnect : Except DaemonCallError Unit)
    (network_id container_id : String) :
    Except String ConnectResult × Bool :=
  match net? with
  | none => (.error ("Network \x27" ++ network_id ++ "\x27 not found"), false)
  | some network =>
    match cont? with
    | none =>
        (.error ("Container \x27" ++ container_id ++ "\x27 not found"), false)
    | some container =>
      let current_containers := NetworkManager.get_network_containers network
      if !(current_containers.any fun c => c.id == container.id.take 12) then
        (.error ("Container \x27" ++ container.name
          ++ "\x27 is not connected to network \x27"
          ++ network.name ++ "\x27"), false)
      else
        match daemonDisconnect with
        | .ok _ =>
            (.ok { message := "Container \x27" ++ container.name
                     ++ "\x27 disconnected from network \x27" ++ network.name
                     ++ "\x27 successfully"
                   network_id := network.id.take 12
                   network_name := network.name
                   container_id := container.id.take 12
                   container_name := container.name
                   status := "disconnected" }, true)
        | .error (.apiError e) =>
            (.error ("Failed to disconnect container from network: " ++ e), true)
        | .error (.other e) =>
            if strIn "not connected" e then (.error e, true)
            else
              (.error ("Failed to disconnect container from network: " ++ e),
                true)

/-!
## VolumeManager (volume_manager.py): the volume-in-use scan and removal
-/

/-- One entry of `container.attrs['Mounts']`.  The dict keys `Type` and
`Name` (field names `Type_`/`Name` here, since `Type` is a Lean keyword)
are read with `.get` (missing key is `none`); `Source`/`Destination` are
present on every daemon mount record and are indexed directly elsewhere. -/
structure ContainerMount where
  Type_ : Option String
  Name : Option String
  Source : String
  Destination : String
deriving DecidableEq

/-- The daemon-side container attributes read by the managers. The raw
`Ports` and `RestartPolicy` passthrough values (returned verbatim and
never inspected) are not modelled. -/
structure DockerContainer where
  id : List Char
  name : String
  status : String
  imageTags : List String
  imageId : List Char
  created : String
  stateStartedAt : Option String
  stateFinishedAt : Option String
  stateExitCode : Option Int
  networks : List String
  mounts : List ContainerMount
  env : List String
  labels : List (String × String)
  command : Option (List String)
  workingDir : Option String
deriving DecidableEq

/-- One entry of the list `_get_containers_using_volume` returns. -/
structure VolumeUserEntry where
  id : List Char
  name : String
  status : String
  mount_destination : String
deriving DecidableEq

/-- `VolumeManager._get_containers_using_volume`
(volume_manager.py:222-250): scan all containers; for each, the inner
mount loop appends the first mount with `Type == 'volume'` and a matching
`Name`, then breaks.  Any exception while listing the containers
(`containersRead = none`) yields `[]`. -/
def VolumeManager.get_containers_using_volume
    (containersRead : Option (List DockerContainer)) (volume_name : String) :
    List VolumeUserEntry :=
  match containersRead with
  | none => []
  | some containers =>
    containers.filterMap fun container =>
      match container.mounts.find? fun m =>
          m.Type_ == some "volume" && m.Name == some volume_name with
      | none => none
      | some mount =>
          some { id := container.id.take 12
                 name := container.name
                 status := container.status
                 mount_destination := mount.Destination }

/-- The success dict of `remove_volume`. -/
structure RemoveVolResult where
  message : String
  name : String
  status : String
deriving DecidableEq

/-- `VolumeManager.remove_volume` (volume_manager.py:123-153): resolve
the volume (`vol? = none` is `docker.errors.NotFound`), issue
`volume.remove(force=force)`; an `APIError` whose text contains
`'volume is in use'` is mapped to the conflict message naming the
containers found by `_get_containers_using_volume`. -/
def VolumeManager.remove_volume (vol? : Option Unit)
    (daemonRemove : Except DaemonCallError Unit)
    (containersRead : Option (List DockerContainer))
    (volume_name : String) (force : Bool) :
    Except String RemoveVolResult × Bool :=
  match vol? with
  | none => (.error ("Volume \x27" ++ volume_name ++ "\x27 not found"), false)
  | some _ =>
    match daemonRemove with
    | .ok _ =>
        (.ok { message := "Volume \x27" ++ volume_name
                 ++ "\x27 removed successfully"
               name := volume_name, status := "removed" }, true)
    | .error (.apiError e) =>
        if strInLower "volume is in use" e then
          let containers :=
            VolumeManager.get_containers_using_volume containersRead volume_name
          let container_names := containers.map (·.name)
          (.error ("Cannot remove volume \x27" ++ volume_name
            ++ "\x27 - it\x27s being used by containers: "
            ++ String.intercalate ", " container_names
            ++ ". Stop containers first or use force=True"), true)
        else (.error ("Failed to remove volume: " ++ e), true)
    | .error (.other e) => (.error ("Failed to remove volume: " ++ e), true)

/-!
## Claims C1, C4, C10
-/

/-- The names of the entries `_get_network_containers` builds are the
endpoint-table entries' `Name` values (defaulted to `'unknown'`). -/
theorem entries_name_map (tbl : List (List Char × NetEndpointInfo)) :
    (tbl.map fun e => entryOfEndpoint e.1 e.2).map (fun c => c.name)
      = tbl.map fun e => e.2.Name.getD "unknown" := by
  induction tbl with
  | nil => rfl
  | cons x xs ih => simp only [List.map_cons, entryOfEndpoint] at ih ⊢; rw [ih]

/-- C1: removal of a network is two-phase — with the endpoint table
read as `tbl`, a non-empty `tbl` makes `remove_network` fail with the
conflict message naming every connected container (each table entry's
name is in the message's name list) without issuing the daemon remove,
and an empty `tbl` (e.g. after the last container is disconnected) makes
it issue the daemon remove and succeed with status `'removed'`. -/
theorem remove_network_two_phase_guard
    (network : DockerNetwork) (tbl : List (List Char × NetEndpointInfo))
    (daemonRemove : Except DaemonCallError Unit) (network_id : String)
    (hattr : network.containersAttr = some tbl) :
    (tbl ≠ [] →
      NetworkManager.remove_network (some network) daemonRemove network_id
        = (.error (networkInUseMsg network.name
            (tbl.map fun e => e.2.Name.getD "unknown")), false)
      ∧ ∀ e ∈ tbl, (e.2.Name.getD "unknown")
          ∈ tbl.map fun e => e.2.Name.getD "unknown")
    ∧ (tbl = [] → daemonRemove = .ok () →
      NetworkManager.remove_network (some network) daemonRemove network_id
        = (.ok { message := "Network \x27" ++ network.name
                   ++ "\x27 removed successfully"
                 id := network_id, name := network.name
                 status := "removed" }, true)) := by
  have hc : NetworkManager.get_network_containers network
      = tbl.map fun e => entryOfEndpoint e.1 e.2 := by
    simp [NetworkManager.get_network_containers, hattr]
  constructor
  · intro hne
    constructor
    · cases tbl with
      | nil => exact absurd rfl hne
      | cons x xs =>
        simp only [NetworkManager.remove_network, hc]
        rw [entries_name_map]
        simp
    · intro e he
      exact List.mem_map_of_mem _ he
  · rintro rfl rfl
    simp [NetworkManager.remove_network, hc]

/-- C1 witness: a network with one connected container is refused with
the conflict message naming it; the same network with the endpoint table
emptied (the container disconnected) is removed successfully. -/
theorem remove_network_two_phase_guard_witness :
    NetworkManager.remove_network
        (some { id := "0123456789abcdef".toList, name := "mynet",
                containersAttr := some [("aaaaaaaaaaaaaaaa".toList,
                  { Name := some "web", IPv4Address := none,
                    IPv6Address := none, MacAddress := none,
                    EndpointID := none })] })
        (.ok ()) "mynet"
      = (.error (networkInUseMsg "mynet" ["web"]), false)
    ∧ NetworkManager.remove_network
        (some { id := "0123456789abcdef".toList, name := "mynet",
                containersAttr := some [] })
        (.ok ()) "mynet"
      = (.ok { message := "Network \x27mynet\x27 removed successfully",
               id := "mynet", name := "mynet", status := "removed" }, true) := by
  constructor
  · exact ((remove_network_two_phase_guard
      { id := "0123456789abcdef".toList, name := "mynet",
        containersAttr := some [("aaaaaaaaaaaaaaaa".toList,
          { Name := some "web", IPv4Address := none, IPv6Address := none,
            MacAddress := none, EndpointID := none })] }
      [("aaaaaaaaaaaaaaaa".toList,
        { Name := some "web", IPv4Address := none, IPv6Address := none,
          MacAddress := none, EndpointID := none })]
      (.ok ()) "mynet" rfl).1 (by simp)).1
  · exact (remove_network_two_phase_guard
      { id := "0123456789abcdef".toList, name := "mynet",
        containersAttr := some [] }
      [] (.ok ()) "mynet" rfl).2 rfl rfl

/-- C4 counterexample: the claim asserts `disconnect_container` raises
NotConnected whenever the container's id is absent from the endpoint
table, but the guard compares 12-character short ids: here the id
`aaaaaaaaaaaacccc` is absent from the table (whose only key is
`aaaaaaaaaaaabbbb`), yet the short ids collide, so the daemon disconnect
is issued and the call succeeds instead of raising. -/
theorem disconnect_absent_id_shortid_collision_cex :
    NetworkManager.disconnect_container
        (some { id := "0123456789abcdef".toList, name := "net1",
                containersAttr := some [("aaaaaaaaaaaabbbb".toList,
                  { Name := some "c1", IPv4Address := none,
                    IPv6Address := none, MacAddress := none,
                    EndpointID := none })] })
        (some { id := "aaaaaaaaaaaacccc".toList, name := "c2" })
        (.ok ()) "net1" "aaaaaaaaaaaacccc"
      = (.ok { message :=
                 "Container \x27c2\x27 disconnected from network \x27net1\x27 successfully",
               network_id := "0123456789ab".toList, network_name := "net1",
               container_id := "aaaaaaaaaaaa".toList, container_name := "c2",
               status := "disconnected" }, true)
    ∧ "aaaaaaaaaaaacccc".toList ∉ ["aaaaaaaaaaaabbbb".toList] := by
  exact ⟨rfl, by decide⟩

/-- C4 amended: `connect_container` raises the AlreadyConnected error
(without issuing the daemon connect) whenever the container's id is a
key of the endpoint table, and `disconnect_container` raises the
NotConnected error (without issuing the daemon disconnect) whenever no
endpoint-table key shares the container id's first 12 characters — mere
absence of the id is not enough, since both guards compare 12-character
short ids. -/
theorem connect_disconnect_membership_guards
    (network : DockerNetwork) (tbl : List (List Char × NetEndpointInfo))
    (container : DockerContainerRef)
    (daemonCall : Except DaemonCallError Unit)
    (network_id container_id : String)
    (hattr : network.containersAttr = some tbl) :
    (container.id ∈ tbl.map Prod.fst →
      NetworkManager.connect_container (some network) (some container)
          daemonCall network_id container_id
        = (.error ("Container \x27" ++ container.name
            ++ "\x27 is already connected to network \x27"
            ++ network.name ++ "\x27"), false))
    ∧ ((∀ e ∈ tbl, e.1.take 12 ≠ container.id.take 12) →
      NetworkManager.disconnect_container (some network) (some container)
          daemonCall network_id container_id
        = (.error ("Container \x27" ++ container.name
            ++ "\x27 is not connected to network \x27"
            ++ network.name ++ "\x27"), false)) := by
  have hc : NetworkManager.get_network_containers network
      = tbl.map fun e => entryOfEndpoint e.1 e.2 := by
    simp [NetworkManager.get_network_containers, hattr]
  constructor
  · intro hmem
    obtain ⟨e, he, heid⟩ := List.mem_map.1 hmem
    have hany : ((tbl.map fun e => entryOfEndpoint e.1 e.2).any
        fun c => c.id == container.id.take 12) = true := by
      refine List.any_eq_true.2 ⟨entryOfEndpoint e.1 e.2,
        List.mem_map_of_mem _ he, ?_⟩
      simp [entryOfEndpoint, heid]
    simp [NetworkManager.connect_container, hc, hany]
  · intro hnone
    have hany : ((tbl.map fun e => entryOfEndpoint e.1 e.2).any
        fun c => c.id == container.id.take 12) = false := by
      refine List.any_eq_false.2 ?_
      intro x hx
      obtain ⟨e, he, rfl⟩ := List.mem_map.1 hx
      simp [entryOfEndpoint, hnone e he]
    simp [NetworkManager.disconnect_container, hc, hany]

/-- C4 witness: a connected container's connect attempt is refused as
already connected; an unrelated container's disconnect attempt is
refused as not connected; neither daemon call is issued. -/
theorem connect_disconnect_membership_guards_witness :
    NetworkManager.connect_container
        (some { id := "0123456789abcdef".toList, name := "net1",
                containersAttr := some [("aaaaaaaaaaaabbbb".toList,
                  { Name := some "c1", IPv4Address := none,
                    IPv6Address := none, MacAddress := none,
                    EndpointID := none })] })
        (some { id := "aaaaaaaaaaaabbbb".toList, name := "c1" })
        (.ok ()) "net1" "c1"
      = (.error "Container \x27c1\x27 is already connected to network \x27net1\x27",
          false)
    ∧ NetworkManager.disconnect_container
        (some { id := "0123456789abcdef".toList, name := "net1",
                containersAttr := some [("aaaaaaaaaaaabbbb".toList,
                  { Name := some "c1", IPv4Address := none,
                    IPv6Address := none, MacAddress := none,
                    EndpointID := none })] })
        (some { id := "zzzzzzzzzzzzyyyy".toList, name := "c9" })
        (.ok ()) "net1" "c9"
      = (.error "Container \x27c9\x27 is not connected to network \x27net1\x27",
          false) := by
  constructor
  · exact (connect_disconnect_membership_guards _ _ _ (.ok ()) "net1" "c1"
      rfl).1 (by decide)
  · exact (connect_disconnect_membership_guards _ _ _ (.ok ()) "net1" "c9"
      rfl).2 (by decide)

/-- C10: the two membership-scanning helpers are total Lean functions
(they never raise), and a failed read of the daemon data
(`containersAttr = none` / `containersRead = none`) yields the empty
list; consequently `remove_network` with a failed endpoint enumeration
proceeds to the daemon remove call, and `remove_volume`'s conflict
message joins an empty name list (names no containers). -/
theorem membership_helpers_swallow_failures
    (network : DockerNetwork) (daemonRemove : Except DaemonCallError Unit)
    (network_id volume_name : String) (force : Bool) (e : String)
    (hattr : network.containersAttr = none)
    (hinuse : strInLower "volume is in use" e = true) :
    NetworkManager.get_network_containers network = []
    ∧ VolumeManager.get_containers_using_volume none volume_name = []
    ∧ (NetworkManager.remove_network (some network) daemonRemove network_id).2
        = true
    ∧ VolumeManager.remove_volume (some ()) (.error (.apiError e)) none
          volume_name force
        = (.error ("Cannot remove volume \x27" ++ volume_name
            ++ "\x27 - it\x27s being used by containers: "
            ++ ". Stop containers first or use force=True"), true) := by
  have hc : NetworkManager.get_network_containers network = [] := by
    simp [NetworkManager.get_network_containers, hattr]
  refine ⟨hc, rfl, ?_, ?_⟩
  · rcases daemonRemove with err | u
    · cases err <;> simp [NetworkManager.remove_network, hc, apply_ite]
    · simp [NetworkManager.remove_network, hc]
  · simp [VolumeManager.remove_volume, hinuse,
      VolumeManager.get_containers_using_volume, String.intercalate]

/-- C10 witness: the theorem applied to a network whose endpoint-table
read raises and a daemon remove that fails with an in-use error. -/
theorem membership_helpers_swallow_failures_witness :
    NetworkManager.get_network_containers
        { id := "0123456789abcdef".toList, name := "net1",
          containersAttr := none } = []
    ∧ VolumeManager.get_containers_using_volume none "vol1" = []
    ∧ (NetworkManager.remove_network
        (some { id := "0123456789abcdef".toList, name := "net1",
                containersAttr := none })
        (.ok ()) "net1").2 = true
    ∧ VolumeManager.remove_volume (some ())
          (.error (.apiError "409 Client Error: volume is in use"))
          none "vol1" false
        = (.error ("Cannot remove volume \x27vol1\x27 - it\x27s being used by containers: . Stop containers first or use force=True"),
            true) := by
  have h := membership_helpers_swallow_failures
    { id := "0123456789abcdef".toList, name := "net1",
      containersAttr := none }
    (.ok ()) "net1" "vol1" false "409 Client Error: volume is in use"
    rfl (by decide)
  exact ⟨h.1, h.2.1, h.2.2.1, h.2.2.2⟩

/-!
## ContainerManager (container_manager.py)
-/

/-- One element of the list `list_containers` returns
(container_manager.py:36-44); the raw `ports` passthrough is not
modelled. -/
structure ContainerListEntry where
  id : List Char
  name : String
  image : String
  status : String
  created : String
  labels : List (String × String)
deriving DecidableEq

/-- `ContainerManager.list_containers` loop body
(container_manager.py:35-45): short id is `container.id[:12]`, `image`
falls back to `container.image.id[:12]` when the image has no tags. -/
def ContainerManager.list_container_entry (container : DockerContainer) :
    ContainerListEntry :=
  { id := container.id.take 12
    name := container.name
    image := match container.imageTags with
      | [] => chrs (container.imageId.take 12)
      | t :: _ => t
    status := container.status
    created := container.created
    labels := container.labels }

/-- `ContainerManager.list_containers` (container_manager.py:21-50),
success path over a daemon-provided container list. -/
def ContainerManager.list_containers (containers : List DockerContainer) :
    List ContainerListEntry :=
  containers.map ContainerManager.list_container_entry

/-- The details dict of `get_container_details`; the raw `ports` and
`restart_policy` passthroughs are not modelled. -/
structure ContainerDetails where
  id : List Char
  name : String
  image : String
  status : String
  created : String
  started : Option String
  finished : Option String
  exit_code : Option Int
  networks : List String
  mounts : List String
  environment : List String
  labels : List (String × String)
  command : Option (List String)
  working_dir : Option String
deriving DecidableEq

/-- `ContainerManager.get_container_details`
(container_manager.py:52-89), success path: full id, the same image
fallback as listing, and mounts formatted `Source:Destination`. -/
def ContainerManager.get_container_details (container : DockerContainer) :
    ContainerDetails :=
  { id := container.id
    name := container.name
    image := match container.imageTags with
      | [] => chrs (container.imageId.take 12)
      | t :: _ => t
    status := container.status
    created := container.created
    started := container.stateStartedAt
    finished := container.stateFinishedAt
    exit_code := container.stateExitCode
    networks := container.networks
    mounts := container.mounts.map fun mount =>
      mount.Source ++ ":" ++ mount.Destination
    environment := container.env
    labels := container.labels
    command := container.command
    working_dir := container.workingDir }

/-- The success dict of start/stop/restart/remove: the Python key
`container_id` (the claim calls it `short_id`). -/
structure LifecycleResult where
  message : String
  container_id : List Char
  name : String
  status : String
deriving DecidableEq

/-- `ContainerManager.start_container` (container_manager.py:91-119):
resolve the container (`none` = NotFound), issue `container.start()`;
an `APIError` containing `'already started'` maps to the
already-running message. -/
def ContainerManager.start_container (cont? : Option DockerContainer)
    (daemonStart : Except DaemonCallError Unit) (container_id : List Char) :
    Except String LifecycleResult × Bool :=
  match cont? with
  | none =>
      (.error ("Container \x27" ++ chrs container_id ++ "\x27 not found"),
        false)
  | some container =>
    match daemonStart with
    | .ok _ =>
        (.ok { message := "Container \x27" ++ container.name
                 ++ "\x27 started successfully"
               container_id := container.id.take 12
               name := container.name
               status := "started" }, true)
    | .error (.apiError e) =>
        if strInLower "already started" e then
          (.error ("Container \x27" ++ chrs container_id
            ++ "\x27 is already running"), true)
        else (.error ("Failed to start container: " ++ e), true)
    | .error (.other e) =>
        (.error ("Failed to start container: " ++ e), true)

/-- `ContainerManager.stop_container` (container_manager.py:121-150):
like start, with the `'already stopped'` translation; `timeout` is
forwarded to the daemon call. -/
def ContainerManager.stop_container (cont? : Option DockerContainer)
    (daemonStop : Except DaemonCallError Unit) (container_id : List Char)
    (timeout : Nat := 10) :
    Except String LifecycleResult × Bool :=
  match cont? with
  | none =>
      (.error ("Container \x27" ++ chrs container_id ++ "\x27 not found"),
        false)
  | some container =>
    match daemonStop with
    | .ok _ =>
        (.ok { message := "Container \x27" ++ container.name
                 ++ "\x27 stopped successfully"
               container_id := container.id.take 12
               name := container.name
               status := "stopped" }, true)
    | .error (.apiError e) =>
        if strInLower "already stopped" e then
          (.error ("Container \x27" ++ chrs container_id
            ++ "\x27 is already stopped"), true)
        else (.error ("Failed to stop container: " ++ e), true)
    | .error (.other e) =>
        (.error ("Failed to stop container: " ++ e), true)

/-- `ContainerManager.restart_container` (container_manager.py:152-177):
no APIError-specific translation — every daemon failure maps to the
generic message. -/
def ContainerManager.restart_container (cont? : Option DockerContainer)
    (daemonRestart : Except DaemonCallError Unit) (container_id : List Char)
    (timeout : Nat := 10) :
    Except String LifecycleResult × Bool :=
  match cont? with
  | none =>
      (.error ("Container \x27" ++ chrs container_id ++ "\x27 not found"),
        false)
  | some container =>
    match daemonRestart with
    | .ok _ =>
        (.ok { message := "Container \x27" ++ container.name
                 ++ "\x27 restarted successfully"
               container_id := container.id.take 12
               name := container.name
               status := "restarted" }, true)
    | .error (.apiError e) =>
        (.error ("Failed to restart container: " ++ e), true)
    | .error (.other e) =>
        (.error ("Failed to restart container: " ++ e), true)

/-- `ContainerManager.remove_container` (container_manager.py:179-209):
the success dict's `container_id` is the CALLER-SUPPLIED identifier
(`container_id`), not `container.id[:12]`. -/
def ContainerManager.remove_container (cont? : Option DockerContainer)
    (daemonRemove : Except DaemonCallError Unit) (container_id : List Char)
    (force : Bool := false) :
    Except String LifecycleResult × Bool :=
  match cont? with
  | none =>
      (.error ("Container \x27" ++ chrs container_id ++ "\x27 not found"),
        false)
  | some container =>
    let container_name := container.name
    match daemonRemove with
    | .ok _ =>
        (.ok { message := "Container \x27" ++ container_name
                 ++ "\x27 removed successfully"
               container_id := container_id
               name := container_name
               status := "removed" }, true)
    | .error (.apiError e) =>
        if strInLower "cannot remove running container" e then
          (.error ("Cannot remove running container \x27"
            ++ chrs container_id ++ "\x27. Stop it first or use force=True"),
            true)
        else (.error ("Failed to remove container: " ++ e), true)
    | .error (.other e) =>
        (.error ("Failed to remove container: " ++ e), true)

/-!
## ImageManager (image_manager.py): listing and details
-/

/-- The daemon-side image attributes read by `list_images` and
`get_image_details`.  `id` is docker-py's `image.id`, the full
`sha256:<hex>` string; `tags` is `image.tags`. -/
structure DockerImage where
  id : String
  tags : List String
  Created : String
  Size : Nat
  VirtualSize : Option Nat
  Architecture : Option String
  Os : Option String
  ConfigLabels : List (String × String)
  ConfigCmd : Option (List String)
  ConfigEntrypoint : Option (List String)
  ConfigEnv : List String
  ConfigExposedPorts : List String
  ConfigUser : Option String
  ConfigWorkingDir : Option String
  ConfigVolumes : List String
deriving DecidableEq

/-- One element of the list `list_images` returns
(image_manager.py:39-51). -/
structure ImageListEntry where
  id : List Char
  tags : List String
  repository : String
  tag : String
  created : String
  size : String
  size_bytes : Nat
  virtual_size : String
  labels : List (String × String)
  architecture : String
  os : String
deriving DecidableEq

/-- `ImageManager.list_images` loop body (image_manager.py:35-52):
tag-less images get the sentinel `['<none>:<none>']`, the short id is
`image.id.split(':')[1][:12]`, and repository/tag split the first tag
on `':'` (every docker id contains `':'`, hence the total `getD`). -/
def ImageManager.list_image_entry (image : DockerImage) : ImageListEntry :=
  let tags := if image.tags.isEmpty then ["<none>:<none>"] else image.tags
  let tags0 := tags.headD ""
  { id := ((splitOnChar ':' image.id.toList).getD 1 []).take 12
    tags := tags
    repository := if tags0.toList.contains ':'
      then chrs ((splitOnChar ':' tags0.toList).headD []) else tags0
    tag := if tags0.toList.contains ':'
      then chrs ((splitOnChar ':' tags0.toList).getD 1 []) else "latest"
    created := image.Created
    size := ImageManager.format_size image.Size
    size_bytes := image.Size
    virtual_size := ImageManager.format_size (image.VirtualSize.getD image.Size)
    labels := image.ConfigLabels
    architecture := image.Architecture.getD "unknown"
    os := image.Os.getD "unknown" }

/-- `ImageManager.list_images` (image_manager.py:21-57), success path. -/
def ImageManager.list_images (images : List DockerImage) :
    List ImageListEntry :=
  images.map ImageManager.list_image_entry

/-- The `config` sub-dict of `get_image_details`. -/
structure ImageConfigDetails where
  cmd : Option (List String)
  entrypoint : Option (List String)
  env : List String
  exposed_ports : List String
  labels : List (String × String)
  user : String
  working_dir : String
  volumes : List String
deriving DecidableEq

/-- The details dict of `get_image_details`; the layer `history` (a
separate `client.api.history` call no claim touches) and the
`docker_version`/`author` passthroughs are not modelled. -/
structure ImageDetails where
  id : String
  tags : List String
  created : String
  size : String
  size_bytes : Nat
  virtual_size : String
  architecture : String
  os : String
  config : ImageConfigDetails
deriving DecidableEq

/-- `ImageManager.get_image_details` (image_manager.py:59-101), success
path: note `tags := image.tags` RAW — no `<none>:<none>` sentinel here,
unlike `list_images`. -/
def ImageManager.get_image_details (image : DockerImage) : ImageDetails :=
  { id := image.id
    tags := image.tags
    created := image.Created
    size := ImageManager.format_size image.Size
    size_bytes := image.Size
    virtual_size := ImageManager.format_size (image.VirtualSize.getD image.Size)
    architecture := image.Architecture.getD "unknown"
    os := image.Os.getD "unknown"
    config :=
      { cmd := image.ConfigCmd
        entrypoint := image.ConfigEntrypoint
        env := image.ConfigEnv
        exposed_ports := image.ConfigExposedPorts
        labels := image.ConfigLabels
        user := image.ConfigUser.getD ""
        working_dir := image.ConfigWorkingDir.getD ""
        volumes := image.ConfigVolumes } }

/-!
## Claims C6, C8, C9
-/

/-- C6 counterexample: for an image with an empty tag list,
`get_image_details` returns the raw empty `tags` — not the sentinel
`['<none>:<none>']` the claim asserts. -/
theorem get_image_details_no_sentinel_cex :
    (ImageManager.get_image_details
        { id := "sha256:0123456789abcdef0123456789abcdef", tags := [],
          Created := "2024-01-01", Size := 1000, VirtualSize := none,
          Architecture := none, Os := none, ConfigLabels := [],
          ConfigCmd := none, ConfigEntrypoint := none, ConfigEnv := [],
          ConfigExposedPorts := [], ConfigUser := none,
          ConfigWorkingDir := none, ConfigVolumes := [] }).tags = []
    ∧ ([] : List String) ≠ ["<none>:<none>"] := by
  exact ⟨rfl, by decide⟩

/-- C6 amended: for every image with an empty tag list, `list_images`
normalizes tags to the sentinel `['<none>:<none>']` and reports
`repository = "<none>"` (the sentinel's first component before `':'`),
while `get_image_details` returns the raw (empty) tag list — the
sentinel normalization happens only in `list_images`. -/
theorem untagged_image_normalization (image : DockerImage)
    (h : image.tags = []) :
    (ImageManager.list_image_entry image).tags = ["<none>:<none>"]
    ∧ (ImageManager.list_image_entry image).repository = "<none>"
    ∧ (ImageManager.get_image_details image).tags = [] := by
  refine ⟨?_, ?_, ?_⟩ <;>
    simp [ImageManager.list_image_entry, ImageManager.get_image_details, h] <;>
    decide

/-- C6 witness: the amended theorem applied to a concrete untagged
image. -/
theorem untagged_image_normalization_witness :
    (ImageManager.list_image_entry
        { id := "sha256:0123456789abcdef0123456789abcdef", tags := [],
          Created := "2024-01-01", Size := 1000, VirtualSize := none,
          Architecture := none, Os := none, ConfigLabels := [],
          ConfigCmd := none, ConfigEntrypoint := none, ConfigEnv := [],
          ConfigExposedPorts := [], ConfigUser := none,
          ConfigWorkingDir := none, ConfigVolumes := [] }).tags
      = ["<none>:<none>"]
    ∧ (ImageManager.list_image_entry
        { id := "sha256:0123456789abcdef0123456789abcdef", tags := [],
          Created := "2024-01-01", Size := 1000, VirtualSize := none,
          Architecture := none, Os := none, ConfigLabels := [],
          ConfigCmd := none, ConfigEntrypoint := none, ConfigEnv := [],
          ConfigExposedPorts := [], ConfigUser := none,
          ConfigWorkingDir := none, ConfigVolumes := [] }).repository
      = "<none>"
    ∧ (ImageManager.get_image_details
        { id := "sha256:0123456789abcdef0123456789abcdef", tags := [],
          Created := "2024-01-01", Size := 1000, VirtualSize := none,
          Architecture := none, Os := none, ConfigLabels := [],
          ConfigCmd := none, ConfigEntrypoint := none, ConfigEnv := [],
          ConfigExposedPorts := [], ConfigUser := none,
          ConfigWorkingDir := none, ConfigVolumes := [] }).tags = [] :=
  untagged_image_normalization _ rfl

/-- C8: for every container, the id reported by the `list_containers`
entry is exactly the first 12 characters of the full id reported by
`get_container_details`, and the full id extends (starts with) that
short id. -/
theorem short_id_is_first12_of_full_id (container : DockerContainer) :
    (ContainerManager.list_container_entry container).id
        = (ContainerManager.get_container_details container).id.take 12
    ∧ ∃ rest, (ContainerManager.get_container_details container).id
        = (ContainerManager.list_container_entry container).id ++ rest :=
  ⟨rfl, ⟨container.id.drop 12, (List.take_append_drop 12 container.id).symm⟩⟩

/-- C9 counterexample: `remove_container` echoes the caller-supplied
identifier in `container_id`, so removing by full id returns the full
16-character id, not the 12-character short form the claim asserts
(start/stop/restart do return `container.id[:12]`). -/
theorem remove_container_echoes_input_id_cex :
    (ContainerManager.remove_container
        (some { id := "aaaabbbbccccdddd".toList, name := "c1",
                status := "exited", imageTags := ["nginx:latest"],
                imageId := "sha256:0123456789abcdef".toList,
                created := "2024-01-01", stateStartedAt := none,
                stateFinishedAt := none, stateExitCode := some 0,
                networks := [], mounts := [], env := [], labels := [],
                command := none, workingDir := none })
        (.ok ()) "aaaabbbbccccdddd".toList false).1
      = .ok { message := "Container \x27c1\x27 removed successfully",
              container_id := "aaaabbbbccccdddd".toList,
              name := "c1", status := "removed" }
    ∧ "aaaabbbbccccdddd".toList ≠ "aaaabbbbccccdddd".toList.take 12 := by
  exact ⟨rfl, by decide⟩

/-- C9 amended: on success each lifecycle operation returns the
structured dict `\x7bmessage, container_id, name, status\x7d` with status the
terminal-state label (`started`/`stopped`/`restarted`/`removed`);
start/stop/restart report `container_id = container.id[:12]` (the
12-character short form), while remove reports the identifier exactly
as the caller passed it. -/
theorem lifecycle_results_structured (container : DockerContainer)
    (cid : List Char) (timeout : Nat) (force : Bool) :
    ContainerManager.start_container (some container) (.ok ()) cid
      = (.ok { message := "Container \x27" ++ container.name
                 ++ "\x27 started successfully"
               container_id := container.id.take 12
               name := container.name, status := "started" }, true)
    ∧ ContainerManager.stop_container (some container) (.ok ()) cid timeout
      = (.ok { message := "Container \x27" ++ container.name
                 ++ "\x27 stopped successfully"
               container_id := container.id.take 12
               name := container.name, status := "stopped" }, true)
    ∧ ContainerManager.restart_container (some container) (.ok ()) cid timeout
      = (.ok { message := "Container \x27" ++ container.name
                 ++ "\x27 restarted successfully"
               container_id := container.id.take 12
               name := container.name, status := "restarted" }, true)
    ∧ ContainerManager.remove_container (some container) (.ok ()) cid force
      = (.ok { message := "Container \x27" ++ container.name
                 ++ "\x27 removed successfully"
               container_id := cid
               name := container.name, status := "removed" }, true) :=
  ⟨rfl, rfl, rfl, rfl⟩
